import Mathlib

set_option maxRecDepth 10000

/-!
Verification of the aioauth-client OAuth 1.0a / OAuth 2.0 client library.
The definitions below are a shallow embedding of `aioauth_client/__init__.py`:
pure helpers embed the Python standard-library calls the code makes
(`urllib.parse.quote`, `urlencode`, `parse_qsl`, `urlsplit`, `urljoin`),
bytes are `List Nat`, machine words are `Nat` reduced `% 2 ^ 32`, and the
stateful client methods become explicit state-passing functions whose
transport round trip is an input.
-/

/-! ## Bytes and percent-escaping (urllib.parse) -/

/-- UTF-8 encoding of one Unicode code point, as Python `str.encode()` produces
per character. -/
def utf8Encode (c : Nat) : List Nat :=
  if c < 128 then [c]
  else if c < 2048 then [192 + c / 64, 128 + c % 64]
  else if c < 65536 then [224 + c / 4096, 128 + (c / 64) % 64, 128 + c % 64]
  else [240 + c / 262144, 128 + (c / 4096) % 64, 128 + (c / 64) % 64, 128 + c % 64]

/-- The UTF-8 bytes of a string (Python `s.encode()`). -/
def strBytes (s : String) : List Nat :=
  (s.data.map (fun c => utf8Encode c.toNat)).flatten

/-- Bytes never percent-escaped by `urllib.parse.quote`: the ALWAYS_SAFE set
ALPHA / DIGIT / underscore / dot / dash / tilde. -/
def isSafeByte (b : Nat) : Bool :=
  (65 ≤ b && b ≤ 90) || (97 ≤ b && b ≤ 122) || (48 ≤ b && b ≤ 57)
    || b == 95 || b == 46 || b == 45 || b == 126

/-- Uppercase hexadecimal digit. -/
def hexUpper (n : Nat) : Char :=
  if n < 10 then Char.ofNat (48 + n) else Char.ofNat (55 + n)

/-- Percent-escape a single byte unless it is safe. -/
def escByte (b : Nat) : List Char :=
  if isSafeByte b then [Char.ofNat b] else ['%', hexUpper (b / 16), hexUpper (b % 16)]

/-- Python `urllib.parse.quote(s, safe=b"~")`, the `Signature._escape` helper.
Since tilde is already in ALWAYS_SAFE, the safe set is exactly `isSafeByte`. -/
def pyQuote (s : String) : String :=
  String.mk ((strBytes s).map escByte).flatten

/-- One byte under `urllib.parse.quote_plus` with `safe=""`: space becomes a
plus sign, everything else follows `quote`. -/
def quotePlusByte (b : Nat) : List Char :=
  if b == 32 then ['+'] else escByte b

/-- Python `urllib.parse.quote_plus(s, safe="")` as `urlencode` applies it. -/
def pyQuotePlus (s : String) : String :=
  String.mk ((strBytes s).map quotePlusByte).flatten

/-- Code-point lexicographic comparison of char lists, Python string `<`. -/
def charsLt : List Char → List Char → Bool
  | _, [] => false
  | [], _ :: _ => true
  | a :: as, b :: bs =>
    if a.toNat < b.toNat then true
    else if b.toNat < a.toNat then false
    else charsLt as bs

/-- Python `<` on strings. -/
def strLt (a b : String) : Bool :=
  charsLt a.data b.data

/-- Python tuple comparison on (key, value) string pairs. -/
def pairLt (p q : String × String) : Bool :=
  strLt p.1 q.1 || (p.1 == q.1 && strLt p.2 q.2)

/-- Insert a pair in front of the first already-placed pair it does not
strictly follow; keeps Python `sorted` stability. -/
def insertPair (p : String × String) : List (String × String) → List (String × String)
  | [] => [p]
  | q :: qs => if pairLt q p then q :: insertPair p qs else p :: q :: qs

/-- Python `sorted` on a list of (key, value) string pairs. -/
def sortPairs : List (String × String) → List (String × String)
  | [] => []
  | p :: ps => insertPair p (sortPairs ps)

/-- Python `urllib.parse.urlencode` over a list of (key, value) pairs. -/
def urlencodePairs (ps : List (String × String)) : String :=
  String.intercalate "&" (ps.map (fun p => pyQuotePlus p.1 ++ "=" ++ pyQuotePlus p.2))

/-! ## SHA-1, HMAC-SHA1 and Base64 (hashlib / hmac / base64) -/

/-- Two to the thirty-second power, the word modulus. -/
def w32 : Nat := 4294967296

/-- 32-bit left rotation. -/
def rotl (n x : Nat) : Nat :=
  ((x <<< n) ||| (x >>> (32 - n))) % w32

/-- 32-bit complement. -/
def bnot32 (b : Nat) : Nat :=
  b.xor 4294967295

/-- Big-endian byte list of `n`, `k` bytes wide. -/
def beBytes : Nat → Nat → List Nat
  | 0, _ => []
  | k + 1, n => beBytes k (n / 256) ++ [n % 256]

/-- SHA-1 message padding: append 0x80, zeros to 56 mod 64, then the 64-bit
big-endian bit length. -/
def sha1Pad (msg : List Nat) : List Nat :=
  let l := msg.length
  msg ++ [128] ++ List.replicate ((120 - (l + 1) % 64) % 64) 0 ++ beBytes 8 (8 * l)

/-- Big-endian 32-bit words of a byte list. -/
def bytesToWords : List Nat → List Nat
  | b0 :: b1 :: b2 :: b3 :: rest =>
    (((b0 * 256 + b1) * 256 + b2) * 256 + b3) :: bytesToWords rest
  | _ => []

/-- Extend the 16-word schedule by `k` more words. -/
def sha1Extend (w : List Nat) : Nat → List Nat
  | 0 => w
  | k + 1 =>
    let w2 := sha1Extend w k
    let i := w2.length
    w2 ++ [rotl 1 (((w2.getD (i - 3) 0).xor (w2.getD (i - 8) 0)).xor
      ((w2.getD (i - 14) 0).xor (w2.getD (i - 16) 0)))]

/-- The SHA-1 round function for round `t`. -/
def sha1F (t b c d : Nat) : Nat :=
  if t < 20 then (b.land c).lor ((bnot32 b).land d)
  else if t < 40 then (b.xor c).xor d
  else if t < 60 then ((b.land c).lor (b.land d)).lor (c.land d)
  else (b.xor c).xor d

/-- The SHA-1 round constant for round `t`. -/
def sha1K (t : Nat) : Nat :=
  if t < 20 then 1518500249
  else if t < 40 then 1859775393
  else if t < 60 then 2400959708
  else 3395469782

/-- Run the 80 compression rounds over the indexed schedule. -/
def sha1Rounds : List (Nat × Nat) → Nat × Nat × Nat × Nat × Nat → Nat × Nat × Nat × Nat × Nat
  | [], st => st
  | (t, wt) :: rest, (a, b, c, d, e) =>
    sha1Rounds rest (((rotl 5 a + sha1F t b c d + e + sha1K t + wt) % w32), a, rotl 30 b, c, d)

/-- Compress one 64-byte block into the running state. -/
def sha1Block (h : Nat × Nat × Nat × Nat × Nat) (block : List Nat) : Nat × Nat × Nat × Nat × Nat :=
  let w := sha1Extend (bytesToWords block) 64
  match h, sha1Rounds ((List.range 80).zip w) h with
  | (h0, h1, h2, h3, h4), (a, b, c, d, e) =>
    ((h0 + a) % w32, (h1 + b) % w32, (h2 + c) % w32, (h3 + d) % w32, (h4 + e) % w32)

/-- Split into 64-byte chunks; the fuel is an upper bound on the number of
chunks so the recursion is structural and reduces in the kernel. -/
def chunks64Go : Nat → List Nat → List (List Nat)
  | 0, _ => []
  | _ + 1, [] => []
  | fuel + 1, l => l.take 64 :: chunks64Go fuel (l.drop 64)

/-- Split into 64-byte chunks. -/
def chunks64 (l : List Nat) : List (List Nat) :=
  chunks64Go l.length l

/-- SHA-1 digest (20 bytes) of a byte list. -/
def sha1Bytes (msg : List Nat) : List Nat :=
  match (chunks64 (sha1Pad msg)).foldl sha1Block
      (1732584193, 4023233417, 2562383102, 271733878, 3285377520) with
  | (a, b, c, d, e) =>
    beBytes 4 a ++ beBytes 4 b ++ beBytes 4 c ++ beBytes 4 d ++ beBytes 4 e

/-- HMAC-SHA1 (Python `hmac.new(key, msg, sha1).digest()`). -/
def hmacSha1 (key msg : List Nat) : List Nat :=
  let k0 := if 64 < key.length then sha1Bytes key else key
  let k := k0 ++ List.replicate (64 - k0.length) 0
  sha1Bytes (k.map (Nat.xor 92) ++ sha1Bytes (k.map (Nat.xor 54) ++ msg))

/-- One Base64 character of a 6-bit value. -/
def b64Char (n : Nat) : Char :=
  if n < 26 then Char.ofNat (65 + n)
  else if n < 52 then Char.ofNat (97 + n - 26)
  else if n < 62 then Char.ofNat (48 + n - 52)
  else if n == 62 then '+' else '/'

/-- Base64 encoding of a byte list, with padding. -/
def b64Chars : List Nat → List Char
  | [] => []
  | [a] => [b64Char (a / 4), b64Char (a % 4 * 16), '=', '=']
  | [a, b] => [b64Char (a / 4), b64Char (a % 4 * 16 + b / 16), b64Char (b % 16 * 4), '=']
  | a :: b :: c :: rest =>
    b64Char (a / 4) :: b64Char (a % 4 * 16 + b / 16) :: b64Char (b % 16 * 4 + c / 64) ::
      b64Char (c % 64) :: b64Chars rest

/-- Python `base64.b64encode(bytes).decode()`. -/
def b64Encode (l : List Nat) : String :=
  String.mk (b64Chars l)

/-! ## The signature engine: HmacSha1Signature.sign -/

/-- Python `str.upper()` restricted to ASCII, which is all the HTTP methods
the library uses. -/
def pyUpper (s : String) : String :=
  String.mk (s.data.map Char.toUpper)

/-- The local `query_string` of `HmacSha1Signature.sign`: with `escape` set,
each key and value is percent-escaped first and the escaped pairs are then
sorted and joined; without it, the raw pairs are sorted and `urlencode`d. -/
def HmacSha1Signature.queryString (escape : Bool) (params : List (String × String)) : String :=
  if escape then
    String.intercalate "&"
      ((sortPairs (params.map (fun p => (pyQuote p.1, pyQuote p.2)))).map
        (fun p => p.1 ++ "=" ++ p.2))
  else
    urlencodePairs (sortPairs params)

/-- The local `signature` of `HmacSha1Signature.sign`: uppercased method, url
and parameter string, each escaped, joined by ampersands. The url is used as
given; no query string is stripped from it. -/
def HmacSha1Signature.baseString (method url query_string : String) : String :=
  pyQuote (pyUpper method) ++ "&" ++ pyQuote url ++ "&" ++ pyQuote query_string

/-- The local `key` of `HmacSha1Signature.sign`: the escaped consumer secret
and an ampersand, extended by the escaped token secret only when that secret
is truthy (present and nonempty). -/
def HmacSha1Signature.signingKey (consumer_secret : String) (oauth_token_secret : Option String) : String :=
  let key := pyQuote consumer_secret ++ "&"
  match oauth_token_secret with
  | some t => if t = "" then key else key ++ pyQuote t
  | none => key

/-- `HmacSha1Signature.sign`: Base64 of the HMAC-SHA1 of the signature base
string under the signing key. `params` carries the keyword arguments in
insertion order. -/
def HmacSha1Signature.sign (consumer_secret method url : String) (oauth_token_secret : Option String)
    (escape : Bool) (params : List (String × String)) : String :=
  b64Encode (hmacSha1
    (strBytes (HmacSha1Signature.signingKey consumer_secret oauth_token_secret))
    (strBytes (HmacSha1Signature.baseString method url
      (HmacSha1Signature.queryString escape params))))

/-! ## Spec-side descriptions used by the refinement claims -/

/-- The signing key as the spec describes it: the percent-escaped consumer
secret, an ampersand, and the percent-escaped token secret when one is
supplied; just the ampersand-terminated first half when it is absent. -/
def specSigningKey (consumer_secret : String) (oauth_token_secret : Option String) : String :=
  match oauth_token_secret with
  | some t => pyQuote consumer_secret ++ "&" ++ pyQuote t
  | none => pyQuote consumer_secret ++ "&"

/-- The escape-mode parameter string as the spec describes it: percent-escape
every key and value first, then sort the escaped pairs lexicographically and
join them. -/
def specEscapedParamString (params : List (String × String)) : String :=
  String.intercalate "&"
    ((sortPairs (params.map (fun p => (pyQuote p.1, pyQuote p.2)))).map
      (fun p => p.1 ++ "=" ++ p.2))

/-! ## Python runtime pieces shared by the client layer -/

/-- Whether the second char list starts with the first. -/
def charsStartWith : List Char → List Char → Bool
  | [], _ => true
  | _ :: _, [] => false
  | a :: as, b :: bs => a == b && charsStartWith as bs

/-- Splitting worker: scan left to right, breaking at every non-overlapping
occurrence of the nonempty separator; the accumulator holds the current
segment reversed, and the fuel (the input length) keeps the recursion
structural so it reduces in the kernel. -/
def splitCharsGo (sep : List Char) : Nat → List Char → List Char → List (List Char)
  | _, [], cur => [cur.reverse]
  | 0, l, cur => [cur.reverse ++ l]
  | fuel + 1, c :: rest, cur =>
    if charsStartWith sep (c :: rest) then
      cur.reverse :: splitCharsGo sep fuel (List.drop sep.length (c :: rest)) []
    else splitCharsGo sep fuel rest (c :: cur)

/-- Python `s.split(sep)` for a nonempty separator (also the behaviour of
`String.splitOn`); an empty separator returns the whole string. -/
def pySplit (s sep : String) : List String :=
  if sep = "" then [s]
  else (splitCharsGo sep.data s.data.length s.data []).map String.mk

/-- Python `s.startswith(pre)`. -/
def pyStartsWith (s pre : String) : Bool :=
  charsStartWith pre.data s.data

/-- Python substring test `sub in s`. -/
def strContains (s sub : String) : Bool :=
  sub == "" || 2 ≤ (pySplit s sub).length

/-- Value of a hexadecimal digit character, if it is one. -/
def hexVal (c : Char) : Option Nat :=
  if 48 ≤ c.toNat && c.toNat ≤ 57 then some (c.toNat - 48)
  else if 65 ≤ c.toNat && c.toNat ≤ 70 then some (c.toNat - 55)
  else if 97 ≤ c.toNat && c.toNat ≤ 102 then some (c.toNat - 87)
  else none

/-- Percent-decoding pass of `urllib.parse.unquote`: a valid `%XX` pair
becomes the byte `XX` (kept as a single char here; the multi-byte UTF-8
recombination is not modelled, all bodies in the claims are ASCII); invalid
sequences are kept verbatim, as Python does. -/
def pctDecode : List Char → List Char
  | '%' :: a :: b :: rest =>
    (match hexVal a, hexVal b with
     | some ha, some hb => Char.ofNat (16 * ha + hb) :: pctDecode rest
     | _, _ => '%' :: pctDecode (a :: b :: rest))
  | c :: rest => c :: pctDecode rest
  | [] => []

/-- Python `urllib.parse.unquote(s.replace("+", " "))` as `parse_qsl` applies
it to names and values. -/
def unquotePlus (s : String) : String :=
  String.mk (pctDecode (s.data.map (fun c => if c = '+' then ' ' else c)))

/-- Python `urllib.parse.parse_qsl` with default arguments: split on
ampersands, skip empty chunks, skip chunks with no equals sign or an empty
value, split each remaining chunk at the first equals sign and unquote both
halves. -/
def parseQsl (s : String) : List (String × String) :=
  (pySplit s "&").filterMap (fun nv =>
    if nv = "" then none
    else match pySplit nv "=" with
      | [] => none
      | [_] => none
      | name :: rest =>
        let value := String.intercalate "=" rest
        if value = "" then none else some (unquotePlus name, unquotePlus value))

/-- A parsed JSON value, the image of `httpx.Response.json()`. -/
inductive JVal where
  | str (s : String)
  | num (n : Int)
  | boolean (b : Bool)
  | null
  | arr (l : List JVal)
  | obj (l : List (String × JVal))

/-- Python truthiness of a JSON value. -/
def JVal.truthy : JVal → Bool
  | .str s => s ≠ ""
  | .num n => n ≠ 0
  | .boolean b => b
  | .null => false
  | .arr l => !l.isEmpty
  | .obj l => !l.isEmpty

/-- The runtime value stored through the statically-unchecked `cast(str, ...)`
of the source: a string is kept as is; other JSON values are represented by a
short tag (their exact Python repr never matters to the claims). -/
def JVal.asString : JVal → String
  | .str s => s
  | .num n => toString n
  | .boolean b => if b then "True" else "False"
  | .null => "None"
  | .arr _ => "<list>"
  | .obj _ => "<dict>"

/-- The value `Client._request` hands back: a mapping (from a JSON object or
a form-encoded body), the raw text (when the form parse is empty), or a
non-object JSON value. -/
inductive TRes where
  | dict (entries : List (String × JVal))
  | text (s : String)
  | other (j : JVal)

/-- Abbreviated model of Python string interpolation of a response value into
an error message; only its presence matters to the claims, never its form. -/
def tresRepr : TRes → String
  | .text s => s
  | .dict _ => "<dict>"
  | .other j => j.asString

/-- Python `d[k] = v` on an insertion-ordered mapping kept as a list of
key-value pairs: overwrite in place, else append. -/
def dictSet {α : Type} (d : List (String × α)) (k : String) (v : α) : List (String × α) :=
  if d.any (fun p => p.1 == k) then d.map (fun p => if p.1 == k then (k, v) else p)
  else d ++ [(k, v)]

/-- Python `d.get(k)`. -/
def dictGet {α : Type} (d : List (String × α)) (k : String) : Option α :=
  (d.find? (fun p => p.1 == k)).map (fun p => p.2)

/-- Python `d.update(u)`. -/
def dictUpdate {α : Type} (d u : List (String × α)) : List (String × α) :=
  u.foldl (fun acc p => dictSet acc p.1 p.2) d

/-- Python `dict(pairs)`: later duplicates win. -/
def pyDict {α : Type} (l : List (String × α)) : List (String × α) :=
  dictUpdate [] l

/-- Python `x or y` where `x` is an optional string (absent and empty are
both falsy). -/
def pyOrString (x : Option String) (y : String) : String :=
  match x with
  | some s => if s ≠ "" then s else y
  | none => y

/-- The transport response as the code observes it: status code, content-type
header, body text, and the JSON parse of the body when it is valid JSON. A
missing content-type header is not modelled (the code would raise TypeError). -/
structure HttpResponse where
  status : Nat
  contentType : String
  text : String
  json : Option JVal

/-- One transport round trip: either a response or a raised transport
exception. -/
inductive TransportResult where
  | resp (r : HttpResponse)
  | exn (msg : String)

/-- The exception kinds the embedded client code can raise. -/
inductive PyErr where
  | oauthError (msg : String)
  | valueError (msg : String)
  | transportError (msg : String)
  | assertionError

/-- Model of `str(response)` used in the non-2xx raise message. -/
def strResponse (status : Nat) : String :=
  "<Response [" ++ toString status ++ "]>"

/-- `Client._request` with the transport round trip supplied as input.
Returns the result (or raised error) together with the emitted log lines;
the debug line is logged before the transport is awaited, so it is present
even when the transport raises. -/
def Client.rawRequest (raise_for_status : Bool) (method url : String) (t : TransportResult) :
    Except PyErr TRes × List String :=
  let logs := ["Request " ++ method ++ ": " ++ url]
  match t with
  | .exn m => (.error (.transportError m), logs)
  | .resp r =>
    if raise_for_status = true ∧ 300 ≤ r.status then
      (.error (.oauthError (strResponse r.status)), logs)
    else if strContains r.contentType "json" then
      match r.json with
      | some (.obj l) => (.ok (.dict l), logs)
      | some j => (.ok (.other j), logs)
      | none => (.error (.valueError "JSONDecodeError"), logs)
    else
      let d := pyDict ((parseQsl r.text).map (fun p => (p.1, JVal.str p.2)))
      if d.isEmpty then (.ok (.text r.text), logs) else (.ok (.dict d), logs)

/-- Modelled from `urllib.parse.urljoin` (standard-library collaborator):
resolve a possibly-relative url against a base. Only the shapes this library
meets are modelled (already-absolute urls, network-path, absolute-path and
relative references); dot-segment normalization is omitted. No theorem below
depends on its internals: the claims constrain its output directly. -/
def pyUrljoin (base url : String) : String :=
  if strContains url "://" then url
  else
    let pieces := pySplit base "://"
    let scheme := pieces.headD ""
    let rest := String.intercalate "://" pieces.tail
    let netloc := (pySplit rest "/").headD ""
    if pyStartsWith url "//" then scheme ++ ":" ++ url
    else if pyStartsWith url "/" then scheme ++ "://" ++ netloc ++ url
    else if url == "" then base
    else
      let parts := pySplit base "/"
      if parts.length ≤ 3 then scheme ++ "://" ++ netloc ++ "/" ++ url
      else String.intercalate "/" parts.dropLast ++ "/" ++ url

/-- `Client._get_url`: join with the base url when the target is relative. -/
def clientGetUrl (base_url url : String) : String :=
  if base_url ≠ "" ∧ ¬(pyStartsWith url "http://" || pyStartsWith url "https://") then
    pyUrljoin base_url url
  else url

/-- The query component of `urllib.parse.urlsplit(url)`: what follows the
first question mark of the fragment-stripped url. -/
def urlsplitQuery (url : String) : String :=
  let noFrag := (pySplit url "#").headD ""
  match pySplit noFrag "?" with
  | [] => ""
  | [_] => ""
  | _ :: rest => String.intercalate "?" rest

/-- An argument that may be a bare string or a mapping (the verifier/code
call shapes the token-exchange methods accept). -/
inductive StrOrMap where
  | str (s : String)
  | map (d : List (String × String))

/-- Render of a value interpolated where the code expects a string; a mapping
that reaches this point is represented by a tag (its exact Python rendering
never matters to the claims). -/
def StrOrMap.render : StrOrMap → String
  | .str s => s
  | .map _ => "<dict>"

/-- Render of `request_token` as a request-parameter value: `str(None)` for
an absent token. -/
def optRender : Option String → String
  | some s => s
  | none => "None"

/-! ## OAuth1Client -/

/-- The credential and configuration state of an `OAuth1Client` (with the
default `HmacSha1Signature`); `params` holds the extra constructor keyword
arguments (`self.params`). -/
structure OAuth1State where
  consumer_key : String
  consumer_secret : String
  oauth_token : Option String
  oauth_token_secret : Option String
  base_url : String
  authorize_url : String
  request_token_url : String
  access_token_url : String
  escape : Bool
  params : List (String × String)

/-- The outgoing HTTP request the client hands to the transport. -/
structure HttpRequest where
  method : String
  url : String
  params : List (String × String)

/-- `OAuth1Client.request` up to the transport call: assembles the oauth
parameters (the nonce and timestamp, produced from the RNG and clock in the
source, are explicit inputs), resolves the url, raises `ValueError` when the
resolved url carries a query string — before any signature is computed — and
otherwise signs and returns the request it would issue. -/
def oauth1Request (st : OAuth1State) (method url : String) (params : List (String × String))
    (nonce timestamp : String) : Except PyErr HttpRequest :=
  let oparams := dictUpdate
    [("oauth_consumer_key", st.consumer_key), ("oauth_nonce", nonce),
     ("oauth_signature_method", "HMAC-SHA1"), ("oauth_timestamp", timestamp),
     ("oauth_version", "1.0")] params
  let oparams := match st.oauth_token with
    | some t => if t ≠ "" then dictSet oparams "oauth_token" t else oparams
    | none => oparams
  let u := clientGetUrl st.base_url url
  if urlsplitQuery u ≠ "" then
    .error (.valueError
      "Request parameters should be in the \x22params\x22 parameter, not inlined in the URL")
  else
    .ok { method := method, url := u,
          params := dictSet oparams "oauth_signature"
            (HmacSha1Signature.sign st.consumer_secret method u st.oauth_token_secret
              st.escape oparams) }

/-- `OAuth1Client.get_request_token` with the transport round trip supplied.
Returns (result or raised error, state afterwards, log lines). The token pair
is stored only when the parsed body is a mapping; a non-mapping body is
returned as is with an empty token and no error. -/
def oauth1GetRequestToken (st : OAuth1State) (params : List (String × String))
    (nonce timestamp : String) (t : TransportResult) :
    Except PyErr (String × TRes) × OAuth1State × List String :=
  match oauth1Request st "GET" st.request_token_url (dictUpdate st.params params) nonce timestamp with
  | .error e => (.error e, st, [])
  | .ok req =>
    match Client.rawRequest true req.method req.url t with
    | (.error e, logs) => (.error e, st, logs)
    | (.ok (.dict entries), logs) =>
      let tok := match dictGet entries "oauth_token" with
        | some j => if j.truthy then j.asString else ""
        | none => ""
      (.ok (tok, .dict entries),
       { st with oauth_token := some tok,
                 oauth_token_secret := (dictGet entries "oauth_token_secret").map JVal.asString },
       logs)
    | (.ok d, logs) => (.ok ("", d), st, logs)

/-- The guard `request_token and self.oauth_token != request_token` of
`OAuth1Client.get_access_token`: an absent or empty request token is falsy
and skips the check. -/
def tokenMismatch (held request_token : Option String) : Bool :=
  match request_token with
  | some rt => rt != "" && held != some rt
  | none => false

/-- `OAuth1Client.get_access_token` with the transport round trip supplied.
The verifier may be a bare string or a mapping holding the verifier under the
shared key `oauth_verifier`. The mismatch check runs before the request is
built, so on mismatch the returned error is produced with no transport
interaction and no log line. -/
def oauth1GetAccessToken (st : OAuth1State) (oauth_verifier : StrOrMap)
    (request_token : Option String) (nonce timestamp : String) (t : TransportResult) :
    Except PyErr (String × TRes) × OAuth1State × List String :=
  let ov := match oauth_verifier with
    | .str s => StrOrMap.str s
    | .map d => match dictGet d "oauth_verifier" with
      | some v => StrOrMap.str v
      | none => StrOrMap.map d
  if tokenMismatch st.oauth_token request_token then
    (.error (.oauthError "Failed to obtain OAuth 1.0 access token. Request token is invalid"),
     st, [])
  else
    match oauth1Request st "POST" st.access_token_url
        [("oauth_verifier", ov.render), ("oauth_token", optRender request_token)]
        nonce timestamp with
    | .error e => (.error e, st, [])
    | .ok req =>
      match Client.rawRequest true req.method req.url t with
      | (.error e, logs) => (.error e, st, logs)
      | (.ok (.dict entries), logs) =>
        let tok := match dictGet entries "oauth_token" with
          | some j => if j.truthy then j.asString else ""
          | none => ""
        (.ok (tok, .dict entries),
         { st with oauth_token := some tok,
                   oauth_token_secret := (dictGet entries "oauth_token_secret").map JVal.asString },
         logs)
      | (.ok d, logs) =>
        (.error (.oauthError
          ("Failed to obtain OAuth 1.0 access token. Invalid data: " ++ tresRepr d)), st, logs)

/-! ## OAuth2Client -/

/-- The credential and configuration state of an `OAuth2Client`; `params`
holds the extra constructor keyword arguments (`self.params`). -/
structure OAuth2State where
  client_id : String
  client_secret : String
  access_token : Option String
  base_url : String
  authorize_url : String
  access_token_url : String
  params : List (String × String)

/-- The form body `OAuth2Client.get_access_token` posts: grant type defaulted
to `authorization_code`, client id and secret inserted, the code (or refresh
token) extracted from a bare string or a mapping under the shared key `code`,
and the redirect uri taken from the argument or the constructor parameters
when truthy. -/
def oauth2AccessTokenPayload (st : OAuth2State) (code : StrOrMap)
    (redirect_uri : Option String) (payload : List (String × String)) :
    List (String × String) :=
  let payload := if (dictGet payload "grant_type").isSome then payload
    else dictSet payload "grant_type" "authorization_code"
  let payload := dictSet (dictSet payload "client_id" st.client_id)
    "client_secret" st.client_secret
  let c := match code with
    | .str s => StrOrMap.str s
    | .map d =>
      if d.isEmpty then StrOrMap.map d
      else match dictGet d "code" with
        | some v => StrOrMap.str v
        | none => StrOrMap.map d
  let payload := dictSet payload
    (if (dictGet payload "grant_type").getD "" == "refresh_token" then "refresh_token" else "code")
    c.render
  let ru := match redirect_uri with
    | some r => if r ≠ "" then some r else dictGet st.params "redirect_uri"
    | none => dictGet st.params "redirect_uri"
  match ru with
  | some r => if r ≠ "" then dictSet payload "redirect_uri" r else payload
  | none => payload

/-- The tail of `OAuth2Client.get_access_token` after the transport returns:
`st1` is the state with the access token already cleared; every error branch
leaves that state untouched. A mapping with a non-string `access_token` hits
the `assert isinstance` and raises; a mapping without one logs a warning that
echoes the payload and returns the cleared (empty) token with the raw data;
a non-mapping body returns an empty token with the raw data. -/
def oauth2HandleTokenResponse (st1 : OAuth2State) (rr : Except PyErr TRes × List String) :
    Except PyErr (String × TRes) × OAuth2State × List String :=
  match rr with
  | (.error e, logs) => (.error e, st1, logs)
  | (.ok (.dict entries), logs) =>
    (match dictGet entries "access_token" with
     | some (.str s) =>
       let st2 : OAuth2State := { st1 with access_token := some s }
       (.ok (pyOrString st2.access_token "", .dict entries), st2, logs)
     | some _ => (.error .assertionError, st1, logs)
     | none =>
       (.ok (pyOrString st1.access_token "", .dict entries), st1,
        logs ++ ["Error when getting the access token.\nData returned by OAuth server: "
          ++ tresRepr (.dict entries)]))
  | (.ok d, logs) => (.ok ("", d), st1, logs)

/-- `OAuth2Client.get_access_token` with the transport round trip supplied.
Returns (result or raised error, state afterwards, log lines). The posted
body is `oauth2AccessTokenPayload`; since the round trip is an input here,
the observed behaviour depends on it only through the transport. The stored
access token is overwritten with the empty string before the request goes
out, and the cleared token never carries an Authorization header. -/
def oauth2GetAccessToken (st : OAuth2State) (code : StrOrMap) (redirect_uri : Option String)
    (payload : List (String × String)) (t : TransportResult) :
    Except PyErr (String × TRes) × OAuth2State × List String :=
  let _body := oauth2AccessTokenPayload st code redirect_uri payload
  oauth2HandleTokenResponse { st with access_token := some "" }
    (Client.rawRequest true "POST" (clientGetUrl st.base_url st.access_token_url) t)

/-! ## Concrete client states for the closed instantiations -/

/-- A concrete OAuth1 client state. -/
def o1test : OAuth1State :=
  { consumer_key := "ck", consumer_secret := "cs", oauth_token := some "held",
    oauth_token_secret := some "hs", base_url := "", authorize_url := "https://p/auth",
    request_token_url := "https://p/req", access_token_url := "https://p/acc",
    escape := false, params := [] }

/-- A concrete OAuth2 client state. -/
def o2test : OAuth2State :=
  { client_id := "cid", client_secret := "csecret", access_token := some "old", base_url := "",
    authorize_url := "", access_token_url := "https://p/token", params := [] }

/-- A concrete OAuth2 client state whose client secret happens to occur inside
its access-token url. -/
def o2leak : OAuth2State :=
  { client_id := "cid", client_secret := "token", access_token := none, base_url := "",
    authorize_url := "", access_token_url := "https://provider/token", params := [] }

/-- Every error branch of the post-transport tail of the OAuth2 token exchange
returns the state it was given. -/
theorem oauth2HandleErrorState (st1 : OAuth2State) (rr : Except PyErr TRes × List String)
    (e : PyErr) (h : (oauth2HandleTokenResponse st1 rr).1 = .error e) :
    (oauth2HandleTokenResponse st1 rr).2.1 = st1 := by
  rcases rr with ⟨res, logs⟩
  rcases res with e2 | d
  · rfl
  · rcases d with entries | s | j
    · rcases hg : dictGet entries "access_token" with _ | v
      · simp [oauth2HandleTokenResponse, hg]
      · rcases v with s | n | b | _ | l | l
        · exact absurd h (by simp [oauth2HandleTokenResponse, hg])
        all_goals simp [oauth2HandleTokenResponse, hg]
    · rfl
    · rfl

/-- Sanity anchor for the crypto embedding: the classic HMAC-SHA1 test
vector. -/
theorem hmacSha1TestVector : b64Encode (hmacSha1 (strBytes "key")
    (strBytes "The quick brown fox jumps over the lazy dog")) = "3nybhbi3iqa8ino29wqQcBydtNk=" := rfl

/-! ## Claims about the signature engine -/

/-- C1 (counterexample): signing `https://a/b?x=1` and `https://a/b` with all
other inputs identical does NOT return the same signature string: the query
string is not stripped from the url by `HmacSha1Signature.sign`. -/
theorem c1_counterexample :
    HmacSha1Signature.sign "cs" "GET" "https://a/b?x=1" none false [] = "+vnWhEFYGNNrYcqxPpGp1sV0QUA=" ∧
    HmacSha1Signature.sign "cs" "GET" "https://a/b" none false [] = "R9o+s5ZaLhFM3M8oD90oFyHnLxw=" ∧
    (("+vnWhEFYGNNrYcqxPpGp1sV0QUA=" : String) == "R9o+s5ZaLhFM3M8oD90oFyHnLxw=") = false :=
  ⟨rfl, rfl, by decide⟩

/-- C1 (amended): the query string is kept, not stripped: for every method and
every parameter string, the signature base string built from
`https://a/b?x=1` is eight characters longer than the one built from
`https://a/b` (the length of the escaped `?x=1`), so the two base strings
always differ and the query part does enter the base string via the url. -/
theorem c1_query_string_kept (method qs : String) :
    (HmacSha1Signature.baseString method "https://a/b?x=1" qs).length =
      (HmacSha1Signature.baseString method "https://a/b" qs).length + 8 := by
  have h1 : (pyQuote "https://a/b?x=1").length = 27 := rfl
  have h2 : (pyQuote "https://a/b").length = 19 := rfl
  have h3 : ("&" : String).length = 1 := rfl
  simp only [HmacSha1Signature.baseString, String.length_append, h1, h2, h3]
  omega

/-- C2 (confirmed): on the fixed test vector of the repository,
`HmacSha1Signature.sign` returns exactly `eqgTuU6+8g4Op1Cyu0QWk+watto=`. -/
theorem c2_fixed_vector :
    HmacSha1Signature.sign "consumer_secret" "GET" "https://site.com/endpoint.json"
      (some "oauth_token_secret") false
      [("oauth_consumer_key", "blablabla"), ("oauth_nonce", "blublublu"),
       ("oauth_signature_method", "HMAC-SHA1"), ("oauth_timestamp", "1644067741"),
       ("oauth_version", "1.0"), ("tweet_mode", "extended"), ("oauth_token", "bliblibli")] =
      "eqgTuU6+8g4Op1Cyu0QWk+watto=" := rfl

/-- C3 (confirmed): for every input, the HMAC key used by
`HmacSha1Signature.sign` is exactly the spec-described signing key: escaped
consumer secret plus a trailing ampersand, extended by the escaped token
secret when one is supplied, and by nothing at all when it is absent. -/
theorem c3_signing_key (cs m u : String) (ts : Option String) (esc : Bool)
    (ps : List (String × String)) :
    HmacSha1Signature.sign cs m u ts esc ps =
      b64Encode (hmacSha1 (strBytes (specSigningKey cs ts))
        (strBytes (HmacSha1Signature.baseString m u (HmacSha1Signature.queryString esc ps)))) := by
  have hkey : HmacSha1Signature.signingKey cs ts = specSigningKey cs ts := by
    cases ts with
    | none => rfl
    | some t =>
      by_cases h : t = ""
      · subst h
        show pyQuote cs ++ "&" = pyQuote cs ++ "&" ++ pyQuote ""
        rw [show pyQuote "" = "" from rfl, String.append_empty]
      · simp [HmacSha1Signature.signingKey, specSigningKey, h]
  unfold HmacSha1Signature.sign
  rw [hkey]

/-- C4 (confirmed): in escape mode the parameter string escapes first and
sorts the escaped pairs, exactly as the spec words it; and the order over
encoded pairs genuinely differs from the order over raw pairs, witnessed by
the keys `0` and `:` whose relative order flips under escaping. -/
theorem c4_escape_then_sort :
    (∀ params, HmacSha1Signature.queryString true params = specEscapedParamString params) ∧
    (HmacSha1Signature.queryString true [("0", "v"), (":", "v")] ==
      String.intercalate "&" ((sortPairs [("0", "v"), (":", "v")]).map
        (fun p => pyQuote p.1 ++ "=" ++ pyQuote p.2))) = false :=
  ⟨fun _ => rfl, by decide⟩

/-! ## Claims about the client layer -/

/-- C5 (confirmed): for every OAuth1 client state, verifier shape and
transport behaviour, supplying a nonempty request token different from the
held `oauth_token` makes `get_access_token` return the protocol-integrity
`OAuthError` with the state untouched and no log line; the result does not
depend on the transport argument at all, so the transport is never invoked. -/
theorem c5_mismatch_before_transport (st : OAuth1State) (ov : StrOrMap)
    (rt nonce timestamp : String) (t : TransportResult)
    (hne : rt ≠ "") (hdiff : st.oauth_token ≠ some rt) :
    oauth1GetAccessToken st ov (some rt) nonce timestamp t =
      (.error (.oauthError "Failed to obtain OAuth 1.0 access token. Request token is invalid"),
       st, []) := by
  have hm : tokenMismatch st.oauth_token (some rt) = true := by
    simp [tokenMismatch, hne, hdiff]
  unfold oauth1GetAccessToken
  rw [hm]
  simp

/-- C5 witness: a concrete mismatching exchange returns the error for a
transport that would raise if consulted. -/
theorem c5_witness :
    ("other" ≠ "" ∧ o1test.oauth_token ≠ some "other") ∧
      oauth1GetAccessToken o1test (.str "v") (some "other") "nonce" "1" (.exn "unused") =
        (.error (.oauthError "Failed to obtain OAuth 1.0 access token. Request token is invalid"),
         o1test, []) :=
  ⟨⟨by decide, by decide⟩,
   c5_mismatch_before_transport o1test (.str "v") "other" "nonce" "1" (.exn "unused")
     (by decide) (by decide)⟩

/-- C6 (counterexample): a 2xx response whose body parses to no key-value
pairs makes `get_request_token` return `("", raw text)` WITHOUT raising any
OAuth error, contradicting the claim that an unparsable body fails with an
OAuth error. -/
theorem c6_counterexample :
    oauth1GetRequestToken o1test [] "nonce" "1"
        (.resp { status := 200, contentType := "text/plain", text := "invalid", json := none }) =
      (.ok ("", .text "invalid"), o1test, ["Request GET: https://p/req"]) := rfl

/-- C6 (amended): `get_request_token` fails with an OAuth error whenever the
transport reports a status of 300 or above; when the status is successful but
the body parses to no key-value pairs, the raw body is returned to the caller
together with an empty token, without raising and without storing anything;
and when the body is a mapping that lacks `oauth_token`, the call returns the
mapping without raising while the stored token silently defaults to the empty
string. -/
theorem c6_amended :
    (∀ (st : OAuth1State) (ps : List (String × String)) (nonce timestamp : String)
        (r : HttpResponse),
        urlsplitQuery (clientGetUrl st.base_url st.request_token_url) = "" →
        300 ≤ r.status →
        (oauth1GetRequestToken st ps nonce timestamp (.resp r)).1 =
          .error (.oauthError (strResponse r.status))) ∧
    (∀ (st : OAuth1State) (ps : List (String × String)) (nonce timestamp : String)
        (r : HttpResponse),
        urlsplitQuery (clientGetUrl st.base_url st.request_token_url) = "" →
        r.status < 300 →
        strContains r.contentType "json" = false →
        parseQsl r.text = [] →
        (oauth1GetRequestToken st ps nonce timestamp (.resp r)).1 = .ok ("", .text r.text)) ∧
    (∀ (st : OAuth1State) (ps : List (String × String)) (nonce timestamp : String)
        (r : HttpResponse) (entries : List (String × JVal)),
        urlsplitQuery (clientGetUrl st.base_url st.request_token_url) = "" →
        r.status < 300 →
        strContains r.contentType "json" = true →
        r.json = some (.obj entries) →
        dictGet entries "oauth_token" = none →
        (oauth1GetRequestToken st ps nonce timestamp (.resp r)).1 = .ok ("", .dict entries) ∧
        (oauth1GetRequestToken st ps nonce timestamp (.resp r)).2.1.oauth_token = some "") := by
  refine ⟨?_, ?_, ?_⟩
  · intro st ps nonce timestamp r hq h3
    unfold oauth1GetRequestToken oauth1Request
    simp [hq, Client.rawRequest, h3]
  · intro st ps nonce timestamp r hq h3 hct hqsl
    unfold oauth1GetRequestToken oauth1Request
    simp [hq, Client.rawRequest, Nat.not_le.mpr h3, hct, hqsl, pyDict, dictUpdate]
  · intro st ps nonce timestamp r entries hq h3 hct hj hmiss
    unfold oauth1GetRequestToken oauth1Request
    simp [hq, Client.rawRequest, Nat.not_le.mpr h3, hct, hj, hmiss]

/-- C6 witness: all three amended branches at concrete inputs — a 404 fails
with the OAuth error, a 200 with unparsable body returns the raw body, and a
200 mapping lacking `oauth_token` returns the mapping while the stored token
defaults to the empty string. -/
theorem c6_witness :
    (urlsplitQuery (clientGetUrl o1test.base_url o1test.request_token_url) = "" ∧
      (300:Nat) ≤ 404 ∧
      (oauth1GetRequestToken o1test [] "n" "1"
          (.resp { status := 404, contentType := "text/plain", text := "err", json := none })).1 =
        .error (.oauthError (strResponse 404))) ∧
    (parseQsl "garbage" = [] ∧
      (oauth1GetRequestToken o1test [] "n" "1"
          (.resp { status := 200, contentType := "text/plain", text := "garbage", json := none })).1 =
        .ok ("", .text "garbage")) ∧
    (dictGet [("a", JVal.str "b")] "oauth_token" = none ∧
      (oauth1GetRequestToken o1test [] "n" "1"
          (.resp { status := 200, contentType := "application/json", text := "x",
                   json := some (.obj [("a", JVal.str "b")]) })).1 =
        .ok ("", .dict [("a", JVal.str "b")]) ∧
      (oauth1GetRequestToken o1test [] "n" "1"
          (.resp { status := 200, contentType := "application/json", text := "x",
                   json := some (.obj [("a", JVal.str "b")]) })).2.1.oauth_token = some "") :=
  ⟨⟨by decide, by decide,
    c6_amended.1 o1test [] "n" "1"
      { status := 404, contentType := "text/plain", text := "err", json := none }
      (by decide) (by decide)⟩,
   ⟨by decide,
    c6_amended.2.1 o1test [] "n" "1"
      { status := 200, contentType := "text/plain", text := "garbage", json := none }
      (by decide) (by decide) (by decide) (by decide)⟩,
   ⟨rfl,
    (c6_amended.2.2 o1test [] "n" "1"
      { status := 200, contentType := "application/json", text := "x",
        json := some (.obj [("a", JVal.str "b")]) }
      [("a", JVal.str "b")]
      (by decide) (by decide) (by decide) rfl rfl).1,
    (c6_amended.2.2 o1test [] "n" "1"
      { status := 200, contentType := "application/json", text := "x",
        json := some (.obj [("a", JVal.str "b")]) }
      [("a", JVal.str "b")]
      (by decide) (by decide) (by decide) rfl rfl).2⟩⟩

/-- C7 (confirmed): a transport-successful JSON response whose object lacks
the `access_token` key makes the OAuth2 `get_access_token` return the pair of
the empty-string token and the raw payload mapping, with no error raised. -/
theorem c7_no_access_token_key (st : OAuth2State) (code : StrOrMap) (ru : Option String)
    (payload : List (String × String)) (r : HttpResponse) (entries : List (String × JVal))
    (h2 : r.status < 300) (hct : strContains r.contentType "json" = true)
    (hj : r.json = some (.obj entries)) (hmiss : dictGet entries "access_token" = none) :
    (oauth2GetAccessToken st code ru payload (.resp r)).1 = .ok ("", .dict entries) := by
  unfold oauth2GetAccessToken oauth2HandleTokenResponse
  simp [Client.rawRequest, Nat.not_le.mpr h2, hct, hj, hmiss, pyOrString]

/-- C7 witness: a concrete denial payload comes back as an ok result with an
empty token. -/
theorem c7_witness :
    ((200:Nat) < 300 ∧ strContains "application/json" "json" = true ∧
      dictGet [("error", JVal.str "denied")] "access_token" = none) ∧
      (oauth2GetAccessToken o2test (.str "000") none []
          (.resp { status := 200, contentType := "application/json", text := "x",
                   json := some (.obj [("error", JVal.str "denied")]) })).1 =
        .ok ("", .dict [("error", JVal.str "denied")]) :=
  ⟨⟨by decide, by decide, rfl⟩,
   c7_no_access_token_key o2test (.str "000") none []
     { status := 200, contentType := "application/json", text := "x",
       json := some (.obj [("error", JVal.str "denied")]) }
     [("error", JVal.str "denied")] (by decide) (by decide) rfl rfl⟩

/-- C8 (confirmed): whenever the resolved target url of an OAuth1 resource
request carries a query string, `OAuth1Client.request` raises the ValueError
demanding parameters through the params channel, before any signature is
computed or any transport interaction happens. -/
theorem c8_query_url_rejected (st : OAuth1State) (method url : String)
    (params : List (String × String)) (nonce timestamp : String)
    (h : urlsplitQuery (clientGetUrl st.base_url url) ≠ "") :
    oauth1Request st method url params nonce timestamp =
      .error (.valueError
        "Request parameters should be in the \x22params\x22 parameter, not inlined in the URL") := by
  unfold oauth1Request
  simp [h]

/-- C8 witness: a concrete url with an inline query string is rejected. -/
theorem c8_witness :
    (urlsplitQuery (clientGetUrl o1test.base_url "https://a/b?x=1") ≠ "") ∧
      oauth1Request o1test "GET" "https://a/b?x=1" [] "n" "1" =
        .error (.valueError
          "Request parameters should be in the \x22params\x22 parameter, not inlined in the URL") :=
  ⟨by decide, c8_query_url_rejected o1test "GET" "https://a/b?x=1" [] "n" "1" (by decide)⟩

/-- C9 (counterexample): a client whose configured client secret occurs as a
substring of its access-token url completes a successful exchange while its
single emitted log line contains that secret, contradicting the unqualified
claim that no log message contains the configured secret. -/
theorem c9_counterexample :
    (oauth2GetAccessToken o2leak (.str "000") none []
        (.resp { status := 200, contentType := "application/json", text := "x",
                 json := some (.obj [("access_token", JVal.str "T")]) })).1 =
      .ok ("T", .dict [("access_token", JVal.str "T")]) ∧
    ((oauth2GetAccessToken o2leak (.str "000") none []
        (.resp { status := 200, contentType := "application/json", text := "x",
                 json := some (.obj [("access_token", JVal.str "T")]) })).2.2.any
      (fun m => strContains m o2leak.client_secret)) = true :=
  ⟨rfl, by decide⟩

/-- C9 (amended): during a successful exchange the client emits exactly one
log line, the transport debug line naming the resolved access-token url;
whenever neither the configured client secret nor the issued token occurs in
that line, no emitted log message contains either of them. -/
theorem c9_amended (st : OAuth2State) (code : StrOrMap) (ru : Option String)
    (payload : List (String × String)) (r : HttpResponse)
    (entries : List (String × JVal)) (tok : String)
    (h2 : r.status < 300) (hct : strContains r.contentType "json" = true)
    (hj : r.json = some (.obj entries))
    (htok : dictGet entries "access_token" = some (.str tok))
    (hsec : strContains ("Request POST: " ++ clientGetUrl st.base_url st.access_token_url)
      st.client_secret = false)
    (htk : strContains ("Request POST: " ++ clientGetUrl st.base_url st.access_token_url)
      tok = false) :
    ∀ m ∈ (oauth2GetAccessToken st code ru payload (.resp r)).2.2,
      strContains m st.client_secret = false ∧ strContains m tok = false := by
  have hlogs : (oauth2GetAccessToken st code ru payload (.resp r)).2.2 =
      ["Request POST: " ++ clientGetUrl st.base_url st.access_token_url] := by
    unfold oauth2GetAccessToken oauth2HandleTokenResponse
    simp [Client.rawRequest, Nat.not_le.mpr h2, hct, hj, htok]
  intro m hm
  rw [hlogs] at hm
  simp only [List.mem_singleton] at hm
  subst hm
  exact ⟨hsec, htk⟩

/-- C9 witness: for an ordinary configuration whose url contains neither the
secret nor the issued token, no log line leaks them. -/
theorem c9_witness :
    (strContains ("Request POST: " ++ clientGetUrl o2test.base_url o2test.access_token_url)
        o2test.client_secret = false) ∧
      ∀ m ∈ (oauth2GetAccessToken o2test (.str "000") none []
          (.resp { status := 200, contentType := "application/json", text := "x",
                   json := some (.obj [("access_token", JVal.str "TOK")]) })).2.2,
        strContains m o2test.client_secret = false ∧ strContains m "TOK" = false :=
  ⟨by decide,
   c9_amended o2test (.str "000") none []
     { status := 200, contentType := "application/json", text := "x",
       json := some (.obj [("access_token", JVal.str "TOK")]) }
     [("access_token", JVal.str "TOK")] "TOK"
     (by decide) (by decide) rfl rfl (by decide) (by decide)⟩

/-- C10 (confirmed): the OAuth2 `get_access_token` clears the stored access
token before the transport round trip, so whenever the call raises — a
transport exception (no response ever arrived) or a non-2xx status or a
malformed body — the final state holds the empty-string token, whatever
token it held before. -/
theorem c10_access_token_cleared (st : OAuth2State) (code : StrOrMap) (ru : Option String)
    (payload : List (String × String)) (t : TransportResult) (e : PyErr)
    (h : (oauth2GetAccessToken st code ru payload t).1 = .error e) :
    (oauth2GetAccessToken st code ru payload t).2.1.access_token = some "" := by
  unfold oauth2GetAccessToken at h ⊢
  rw [oauth2HandleErrorState _ _ e h]

/-- C10 witness: a client holding a previous token that suffers a transport
exception ends with the empty-string token. -/
theorem c10_witness :
    ((oauth2GetAccessToken o2test (.str "000") none [] (.exn "boom")).1 =
        .error (.transportError "boom")) ∧
      (oauth2GetAccessToken o2test (.str "000") none [] (.exn "boom")).2.1.access_token =
        some "" :=
  ⟨rfl,
   c10_access_token_cleared o2test (.str "000") none [] (.exn "boom")
     (.transportError "boom") rfl⟩
